import Mathlib

/-!
Shallow embedding of the Market Mood Monitor scoring and history modules
(`src/data/calculator.py`, `src/utils/config.py`, `src/data/score_history.py`).

Modelling conventions:
* Python floats are modelled by `ℚ`; the float literals `0.35`, `0.25`, `0.20`
  used as weights are modelled by the decimal rationals they denote.
* Python's `round(x, 1)` is modelled by round-half-to-even at one decimal
  (`pyRound1`), matching `round`'s banker's rounding.
* Loosely typed JSON/dict payloads are modelled by the `Val` type; Python
  operations that can raise (`.get` on a non-dict → AttributeError,
  arithmetic/comparison on a non-number → TypeError) are modelled in
  `Except String`.
-/

/-- Round-half-to-even to the nearest integer, the tie rule of Python `round`. -/
def roundHalfEven (q : ℚ) : ℤ :=
  if q - (⌊q⌋ : ℚ) < 1/2 then ⌊q⌋
  else if 1/2 < q - (⌊q⌋ : ℚ) then ⌊q⌋ + 1
  else if ⌊q⌋ % 2 = 0 then ⌊q⌋ else ⌊q⌋ + 1

/-- Model of Python `round(x, 1)`. -/
def pyRound1 (q : ℚ) : ℚ := ((roundHalfEven (q * 10) : ℤ) : ℚ) / 10

/-- Entry of `RISK_SCORE_THRESHOLDS` in `src/utils/config.py`. -/
structure Threshold where
  min : ℚ
  max : ℚ
  status : String
  color : String
  emoji : String
  message : String
deriving DecidableEq

/-- The five-band score table `RISK_SCORE_THRESHOLDS` from `src/utils/config.py`. -/
def RISK_SCORE_THRESHOLDS : List Threshold :=
  [⟨0, 30, "Extreme Risk Off", "#ef4444", "🔴", "Protect capital mode - Market showing extreme weakness"⟩,
   ⟨31, 45, "Risk Off", "#f97316", "🟠", "Cautious positioning - Defensive stance recommended"⟩,
   ⟨46, 60, "Neutral", "#eab308", "🟡", "Wait for confirmation - No clear directional bias"⟩,
   ⟨61, 80, "Risk On", "#10b981", "🟢", "Constructive conditions - Market showing strength"⟩,
   ⟨81, 100, "Extreme Risk On", "#22c55e", "💚", "Maximum exposure justified - Strong bullish momentum"⟩]

/-- The membership test `threshold["min"] <= score <= threshold["max"]` used by
`get_risk_status` in `src/data/calculator.py`. -/
def thresholdMatches (t : Threshold) (score : ℚ) : Bool :=
  decide (t.min ≤ score) && decide (score ≤ t.max)

/-- Result shape of `get_risk_status`. -/
structure StatusInfo where
  status : String
  color : String
  emoji : String
  message : String
deriving DecidableEq

/-- `RiskScoreCalculator.get_risk_status` from `src/data/calculator.py`: linear
scan of the threshold table, defensive "Unknown" fallback when no range matches. -/
def get_risk_status (score : ℚ) : StatusInfo :=
  match RISK_SCORE_THRESHOLDS.find? (fun t => thresholdMatches t score) with
  | some t => ⟨t.status, t.color, t.emoji, t.message⟩
  | none => ⟨"Unknown", "#808080", "⚪", "Unable to determine market status"⟩

/-- `RiskScoreCalculator.calculate_btc_momentum` from `src/data/calculator.py`:
hard-coded if/elif chain on the 24h % change (the `btc_price` argument is unused
by the source body as well). -/
def calculate_btc_momentum (btc_price : ℚ) (price_change_24h : ℚ) : ℚ :=
  if price_change_24h > 10 then 90
  else if price_change_24h > 5 then 75
  else if price_change_24h > 2 then 65
  else if price_change_24h > 0 then 55
  else if price_change_24h > -2 then 45
  else if price_change_24h > -5 then 35
  else if price_change_24h > -10 then 25
  else 10

/-- The bucket chain of `RiskScoreCalculator.calculate_volume_health` applied to
the computed `volume_to_mcap_ratio` (`src/data/calculator.py`). -/
def volumeBucket (volume_to_mcap_ratio : ℚ) : ℚ :=
  if volume_to_mcap_ratio > 8 then 95
  else if volume_to_mcap_ratio > 6 then 80
  else if volume_to_mcap_ratio > 4 then 65
  else if volume_to_mcap_ratio > 2 then 50
  else 35

/-- Model of the loosely typed Python values stored in the `market_data` dict:
`None`, numbers, strings, and nested dicts. -/
inductive Val where
  | none : Val
  | num : ℚ → Val
  | str : String → Val
  | dict : List (String × Val) → Val

/-- Python truthiness for `Val`: `None`, `0`, `""` and `{}` are falsy. -/
def Val.truthy : Val → Bool
  | .none => false
  | .num q => decide (q ≠ 0)
  | .str s => !(s == "")
  | .dict d => !d.isEmpty

/-- Python `market_data.get(key)` on the top-level dict: value or `None`. -/
def mdGet (d : List (String × Val)) (key : String) : Val :=
  match d.find? (fun p => p.1 == key) with
  | some p => p.2
  | Option.none => Val.none

/-- Python `a or b`: `a` when truthy, else `b`. -/
def pyOr (a b : Val) : Val := if a.truthy then a else b

/-- Python `v.get(key, dflt)`: raises AttributeError unless `v` is a dict. -/
def Val.get (v : Val) (key : String) (dflt : Val) : Except String Val :=
  match v with
  | .dict d =>
    match d.find? (fun p => p.1 == key) with
    | some p => .ok p.2
    | Option.none => .ok dflt
  | _ => .error "AttributeError"

/-- Using a `Val` as a number (comparison or arithmetic operand): raises
TypeError unless it is a number. -/
def Val.toNum : Val → Except String ℚ
  | .num q => .ok q
  | _ => .error "TypeError"

/-- Numeric view with a default, for an argument that is passed along but never
used numerically (the `btc_price` argument of `calculate_btc_momentum`). -/
def Val.toNumD (v : Val) (d : ℚ) : ℚ :=
  match v with
  | .num q => q
  | _ => d

/-- `RiskScoreCalculator.calculate_volume_health` from `src/data/calculator.py`:
reads `total_market_cap_usd` (default 1), computes the volume/mcap ratio (0 when
the market cap is not positive) and buckets it. -/
def calculate_volume_health (current_volume : Val) (market_data : Val) : Except String ℚ :=
  match market_data.get "total_market_cap_usd" (.num 1) with
  | .error e => .error e
  | .ok tmcV =>
    match tmcV.toNum with
    | .error e => .error e
    | .ok total_market_cap =>
      if total_market_cap > 0 then
        match current_volume.toNum with
        | .error e => .error e
        | .ok cv => .ok (volumeBucket (cv / total_market_cap * 100))
      else
        .ok (volumeBucket 0)

/-- The four component sub-scores recorded in a `RiskScoreResult`. -/
structure Components where
  fear_greed : ℚ
  btc_momentum : ℚ
  volume_health : ℚ
  market_breadth : ℚ
deriving DecidableEq

/-- Result of `calculate_risk_score` (the fields the claims are about; the
constant `weights` field and the timestamp/prompt metadata are omitted).
`components` is `none` on the error path, where the source returns `{}`. -/
structure RiskResult where
  score : ℚ
  status : String
  color : String
  emoji : String
  message : String
  components : Option Components
deriving DecidableEq

/-- Model of Python `min(a, b)` on numbers (returns the first argument on ties). -/
def pyMin (a b : ℚ) : ℚ := if b < a then b else a

/-- Model of Python `max(a, b)` on numbers (returns the first argument on ties). -/
def pyMax (a b : ℚ) : ℚ := if a < b then b else a

/-- Success-path assembly of the result in `calculate_risk_score`: weighted sum
with the `RISK_SCORE_WEIGHTS` (0.35 / 0.25 / 0.20 / 0.20), clamp to [0,100] via
`max(0, min(100, risk_score))`, status lookup, score rounded to one decimal. -/
def clampScore (fg mom vh mb : ℚ) : ℚ :=
  pyMax 0 (pyMin 100 (fg * (35/100) + mom * (25/100) + vh * (20/100) + mb * (20/100)))

def assembleResult (fg mom vh mb : ℚ) : RiskResult :=
  ⟨pyRound1 (clampScore fg mom vh mb),
   (get_risk_status (clampScore fg mom vh mb)).status,
   (get_risk_status (clampScore fg mom vh mb)).color,
   (get_risk_status (clampScore fg mom vh mb)).emoji,
   (get_risk_status (clampScore fg mom vh mb)).message,
   some ⟨fg, mom, vh, mb⟩⟩

/-- The fixed fallback result of the `except` branch of `calculate_risk_score`. -/
def errorResult : RiskResult :=
  ⟨50, "Error", "#808080", "⚪", "Unable to calculate risk score due to data issues",
   Option.none⟩

/-- The body of the `try` block of `RiskScoreCalculator.calculate_risk_score`
(`src/data/calculator.py`): field extraction with defaults, the two component
calculators, weighted sum and result assembly; any Python exception surfaces as
`.error`. -/
def calcRiskScoreAux (fear_greed_data btc_data global_data market_breadth : Val) :
    Except String RiskResult :=
  match (if fear_greed_data.truthy
         then fear_greed_data.get "value" (.num 50)
         else .ok (.num 50)) with
  | .error e => .error e
  | .ok fear_greed_value =>
    match btc_data.get "price_usd" (.num 0) with
    | .error e => .error e
    | .ok priceV =>
      match btc_data.get "price_change_24h" (.num 0) with
      | .error e => .error e
      | .ok changeV =>
        match changeV.toNum with
        | .error e => .error e
        | .ok change =>
          match global_data.get "total_volume_24h_usd" (.num 0) with
          | .error e => .error e
          | .ok volumeV =>
            match calculate_volume_health volumeV global_data with
            | .error e => .error e
            | .ok vh =>
              match fear_greed_value.toNum with
              | .error e => .error e
              | .ok fg =>
                match market_breadth.toNum with
                | .error e => .error e
                | .ok mb =>
                  .ok (assembleResult fg
                    (calculate_btc_momentum (priceV.toNumD 0) change) vh mb)

/-- The body of the `try` block applied to the extracted dict fields: the
sequence of assignments `fear_greed_data = market_data.get("fear_greed") or {}`,
`btc_data = ... or {}`, `global_data = ... or {}`, and the
`market_breadth ... if ... is not None else 50` default. -/
def calcRiskScoreCore (market_data : List (String × Val)) : Except String RiskResult :=
  calcRiskScoreAux
    (pyOr (mdGet market_data "fear_greed") (.dict []))
    (pyOr (mdGet market_data "bitcoin") (.dict []))
    (pyOr (mdGet market_data "global_market") (.dict []))
    (match mdGet market_data "market_breadth" with
     | .none => Val.num 50
     | v => v)

/-- `RiskScoreCalculator.calculate_risk_score`: the `try/except` wrapper — any
exception inside the computation is replaced by the fixed fallback result. -/
def calculate_risk_score (market_data : List (String × Val)) : RiskResult :=
  match calcRiskScoreCore market_data with
  | .ok r => r
  | .error _ => errorResult

/-- Entry of the score history log (`src/data/score_history.py`). Timestamps are
modelled by the integer time value their ISO string denotes
(`datetime.isoformat`/`fromisoformat` are mutually inverse on them). -/
structure HistEntry where
  ts : ℤ
  score : ℚ
  status : String
  message : String
deriving DecidableEq

/-- Result shape of `get_historical_values`. -/
structure HistoricalValues where
  now : Option HistEntry
  yesterday : Option HistEntry
  last_week : Option HistEntry
  last_month : Option HistEntry
deriving DecidableEq

/-- Model of Python `min(available, key=...)`: first element with minimal key. -/
def argminKey (key : HistEntry → ℕ) : List HistEntry → Option HistEntry
  | [] => Option.none
  | h :: t => some (t.foldl (fun b x => if key x < key b then x else b) h)

/-- One nearest-neighbor search of `get_historical_values`: filter out entries
whose timestamp is in `used_entries`, then take the entry closest to `target`. -/
def pickClosest (target : ℤ) (used : List ℤ) (history : List HistEntry) : Option HistEntry :=
  argminKey (fun h => (h.ts - target).natAbs) (history.filter (fun h => !(used.contains h.ts)))

/-- Accumulation of `used_entries`: the timestamp of a selected entry is added
to the pool of excluded timestamps. -/
def usedAfter (used : List ℤ) (picked : Option HistEntry) : List ℤ :=
  used ++ (match picked with | some e => [e.ts] | Option.none => [])

/-- The `yesterday` slot of `get_historical_values`: computed only when the
history has more than one entry, with the latest entry's timestamp already in
`used_entries`. -/
def ghYesterday (history : List HistEntry) (now_time : ℤ) : Option HistEntry :=
  match history.getLast? with
  | Option.none => Option.none
  | some l =>
    if 1 < history.length then pickClosest (now_time - 86400) [l.ts] history
    else Option.none

/-- The `last_week` slot: the `yesterday` pick has been added to `used_entries`. -/
def ghLastWeek (history : List HistEntry) (now_time : ℤ) : Option HistEntry :=
  match history.getLast? with
  | Option.none => Option.none
  | some l =>
    if 1 < history.length then
      pickClosest (now_time - 7 * 86400) (usedAfter [l.ts] (ghYesterday history now_time)) history
    else Option.none

/-- The `last_month` slot: both previous picks are in `used_entries`. -/
def ghLastMonth (history : List HistEntry) (now_time : ℤ) : Option HistEntry :=
  match history.getLast? with
  | Option.none => Option.none
  | some l =>
    if 1 < history.length then
      pickClosest (now_time - 30 * 86400)
        (usedAfter (usedAfter [l.ts] (ghYesterday history now_time)) (ghLastWeek history now_time))
        history
    else Option.none

/-- `get_historical_values` from `src/data/score_history.py`: empty history
gives four nulls; otherwise "now" is the latest entry and the three historical
slots are nearest-neighbor picks with greedy sequential exclusion by timestamp. -/
def get_historical_values (history : List HistEntry) (now_time : ℤ) : HistoricalValues :=
  match history with
  | [] => ⟨Option.none, Option.none, Option.none, Option.none⟩
  | _ :: _ =>
    ⟨history.getLast?, ghYesterday history now_time,
     ghLastWeek history now_time, ghLastMonth history now_time⟩

/-- Model of the JSON values stored in the history file. ISO-format timestamp
strings are modelled by the `iso` constructor holding the time value they
denote; `str` covers all other strings. -/
inductive Json where
  | null : Json
  | num : ℚ → Json
  | str : String → Json
  | iso : ℤ → Json
  | arr : List Json → Json
  | obj : List (String × Json) → Json

/-- Python `fields.get(key)` on a parsed JSON object. -/
def jLookup (fields : List (String × Json)) (key : String) : Option Json :=
  (fields.find? (fun p => p.1 == key)).map (fun p => p.2)

def Json.isObj : Json → Bool
  | .obj _ => true
  | _ => false

/-- State of the history file: absent, present but not decodable as JSON, or
holding a parsed JSON value. -/
inductive FileContent where
  | missing : FileContent
  | corrupt : FileContent
  | json : Json → FileContent

/-- `load_history` from `src/data/score_history.py`: a missing file or a
JSONDecodeError/IOError yields `[]`; for decodable JSON, `data.get('history',
[])` is returned — which raises an uncaught AttributeError when the document is
not an object, and returns the raw `history` value (list or not) when it is. -/
def load_history : FileContent → Except String Json
  | .missing => .ok (.arr [])
  | .corrupt => .ok (.arr [])
  | .json j =>
    match j with
    | .obj fields => .ok ((jLookup fields "history").getD (.arr []))
    | _ => .error "AttributeError"

/-- Python `h['timestamp']` on a loaded entry: TypeError on a non-dict, KeyError
on a missing key. -/
def jIndex (j : Json) (key : String) : Except String Json :=
  match j with
  | .obj fields =>
    match jLookup fields key with
    | some v => .ok v
    | Option.none => .error "KeyError"
  | _ => .error "TypeError"

/-- Python `datetime.fromisoformat(x)`: succeeds exactly on ISO timestamp
strings; ValueError on other strings, TypeError on non-strings. -/
def fromIso : Json → Except String ℤ
  | .iso t => .ok t
  | .str _ => .error "ValueError"
  | _ => .error "TypeError"

/-- The pruning list comprehension of `save_score`: keep entries whose parsed
timestamp is strictly newer than the cutoff; malformed entries raise. -/
def pruneOld (cutoff : ℤ) : List Json → Except String (List Json)
  | [] => .ok []
  | h :: t =>
    match jIndex h "timestamp" with
    | .error e => .error e
    | .ok ts =>
      match fromIso ts with
      | .error e => .error e
      | .ok tv =>
        match pruneOld cutoff t with
        | .error e => .error e
        | .ok rest => if cutoff < tv then .ok (h :: rest) else .ok rest

/-- The entry dict built by `save_score`: current timestamp as ISO string, score
rounded to one decimal, status and message as given. -/
def mkEntry (now_ts : ℤ) (score : ℚ) (status message : String) : Json :=
  .obj [("timestamp", .iso now_ts), ("score", .num (pyRound1 score)),
        ("status", .str status), ("message", .str message)]

/-- `save_score` from `src/data/score_history.py`: load the history, append the
new timestamped entry, drop entries older than `MAX_HISTORY_DAYS = 90` days,
and write back `{"history": [...]}`; exceptions from the load or the pruning
propagate. -/
def save_score (f : FileContent) (now_ts : ℤ) (score : ℚ) (status message : String) :
    Except String FileContent :=
  match load_history f with
  | .error e => .error e
  | .ok history =>
    match history with
    | .arr items =>
      match pruneOld (now_ts - 90 * 86400) (items ++ [mkEntry now_ts score status message]) with
      | .error e => .error e
      | .ok pruned => .ok (.json (.obj [("history", .arr pruned)]))
    | _ => .error "AttributeError"

theorem roundHalfEven_ge_floor (q : ℚ) : ⌊q⌋ ≤ roundHalfEven q := by
  unfold roundHalfEven
  split_ifs <;> omega

theorem roundHalfEven_le_ceil (q : ℚ) : roundHalfEven q ≤ ⌈q⌉ := by
  unfold roundHalfEven
  split_ifs with h1 h2 h3
  · exact Int.floor_le_ceil q
  · have hfr : (⌊q⌋ : ℚ) < q := by
      have : (0 : ℚ) < q - (⌊q⌋ : ℚ) := lt_trans (by norm_num) h2
      linarith
    exact Int.add_one_le_ceil_iff.mpr hfr
  · exact Int.floor_le_ceil q
  · have hr : q - (⌊q⌋ : ℚ) = 1/2 := le_antisymm (not_lt.mp h2) (not_lt.mp h1)
    have hfr : (⌊q⌋ : ℚ) < q := by linarith
    exact Int.add_one_le_ceil_iff.mpr hfr

theorem pyRound1_nonneg {q : ℚ} (h : 0 ≤ q) : 0 ≤ pyRound1 q := by
  unfold pyRound1
  have h0 : (0 : ℤ) ≤ ⌊q * 10⌋ := Int.le_floor.mpr (by push_cast; linarith)
  have h1 : (0 : ℤ) ≤ roundHalfEven (q * 10) := le_trans h0 (roundHalfEven_ge_floor _)
  positivity

theorem pyRound1_le_100 {q : ℚ} (h : q ≤ 100) : pyRound1 q ≤ 100 := by
  unfold pyRound1
  have h0 : ⌈q * 10⌉ ≤ (1000 : ℤ) := Int.ceil_le.mpr (by push_cast; linarith)
  have h1 : roundHalfEven (q * 10) ≤ (1000 : ℤ) := le_trans (roundHalfEven_le_ceil _) h0
  have h2 : ((roundHalfEven (q * 10) : ℤ) : ℚ) ≤ 1000 := by exact_mod_cast h1
  linarith

theorem calc_risk_score_cases (md : List (String × Val)) :
    calculate_risk_score md = errorResult ∨
    ∃ fg mom vh mb, calculate_risk_score md = assembleResult fg mom vh mb := by
  rcases hcore : calcRiskScoreCore md with e | r
  · left
    unfold calculate_risk_score
    rw [hcore]
  · have hr : calculate_risk_score md = r := by
      unfold calculate_risk_score
      rw [hcore]
    right
    unfold calcRiskScoreCore calcRiskScoreAux at hcore
    repeat' split at hcore
    all_goals first
      | exact ⟨_, _, _, _, by rw [hr]; injection hcore with h; exact h.symm⟩
      | exact absurd hcore (by simp)

theorem assembleResult_score_bounds (fg mom vh mb : ℚ) :
    0 ≤ (assembleResult fg mom vh mb).score ∧ (assembleResult fg mom vh mb).score ≤ 100 := by
  unfold assembleResult clampScore pyMax pyMin
  constructor
  · apply pyRound1_nonneg
    split_ifs <;> linarith
  · apply pyRound1_le_100
    split_ifs <;> linarith

theorem get_risk_status_mem (s : ℚ) :
    (get_risk_status s).status ∈
      (["Extreme Risk Off", "Risk Off", "Neutral", "Risk On", "Extreme Risk On",
        "Unknown"] : List String) := by
  unfold get_risk_status
  cases hf : RISK_SCORE_THRESHOLDS.find? (fun t => thresholdMatches t s) with
  | none => simp
  | some t =>
    have ht := List.mem_of_find?_eq_some hf
    fin_cases ht <;> simp

/-- C1 (amended): for every market_data input, the score returned by
`calculate_risk_score` lies in [0,100], and the status is one of the five band
labels or the defensive "Unknown" fallback (reachable for non-integer scores in
the gaps between bands) or "Error" (exception path). -/
theorem C1_score_range_status (md : List (String × Val)) :
    0 ≤ (calculate_risk_score md).score ∧ (calculate_risk_score md).score ≤ 100 ∧
    (calculate_risk_score md).status ∈
      (["Extreme Risk Off", "Risk Off", "Neutral", "Risk On", "Extreme Risk On",
        "Unknown", "Error"] : List String) := by
  rcases calc_risk_score_cases md with h | ⟨fg, mom, vh, mb, h⟩
  · rw [h]
    refine ⟨by norm_num [errorResult], by norm_num [errorResult], by simp [errorResult]⟩
  · rw [h]
    obtain ⟨h1, h2⟩ := assembleResult_score_bounds fg mom vh mb
    refine ⟨h1, h2, ?_⟩
    have hst : (assembleResult fg mom vh mb).status =
        (get_risk_status (pyMax 0 (pyMin 100 (fg * (35/100) + mom * (25/100) +
          vh * (20/100) + mb * (20/100))))).status := rfl
    rw [hst]
    have hmem := get_risk_status_mem (pyMax 0 (pyMin 100 (fg * (35/100) + mom * (25/100) +
      vh * (20/100) + mb * (20/100))))
    simp only [List.mem_cons, List.not_mem_nil, or_false] at hmem ⊢
    tauto

theorem core_empty_eval : calcRiskScoreCore [] = .ok (assembleResult 50 45 35 50) := by
  have hdiv : (0 : ℚ) / 1 * 100 = 0 := by norm_num
  show calcRiskScoreAux (Val.dict []) (Val.dict []) (Val.dict []) (Val.num 50) = _
  unfold calcRiskScoreAux
  norm_num [Val.truthy, Val.get, Val.toNum, Val.toNumD, calculate_volume_health,
    calculate_btc_momentum, volumeBucket, List.find?, hdiv]

theorem calc_empty_eval : calculate_risk_score [] = assembleResult 50 45 35 50 := by
  unfold calculate_risk_score
  rw [core_empty_eval]

theorem clampScore_empty : clampScore 50 45 35 50 = 183/4 := by
  unfold clampScore pyMax pyMin
  norm_num

theorem get_risk_status_4575 :
    get_risk_status (183/4) =
      ⟨"Unknown", "#808080", "⚪", "Unable to determine market status"⟩ := by
  have hf : RISK_SCORE_THRESHOLDS.find? (fun t => thresholdMatches t (183/4)) =
      Option.none := by
    simp only [RISK_SCORE_THRESHOLDS, thresholdMatches, List.find?]
    norm_num
  unfold get_risk_status
  rw [hf]

theorem pyRound1_4575 : pyRound1 (183/4) = 458/10 := by
  unfold pyRound1 roundHalfEven
  norm_num

/-- C1 counterexample: on the empty market_data dict the returned status is
"Unknown", which is not one of the five defined band labels. -/
theorem C1_counterexample :
    (calculate_risk_score []).status = "Unknown" ∧
    "Unknown" ∉
      (["Extreme Risk Off", "Risk Off", "Neutral", "Risk On", "Extreme Risk On"] :
        List String) := by
  constructor
  · rw [calc_empty_eval]
    show (get_risk_status (clampScore 50 45 35 50)).status = "Unknown"
    rw [clampScore_empty, get_risk_status_4575]
  · decide

/-- C2 (amended): `calculate_btc_momentum` is a piecewise-constant step function
of the 24h % change with 8 buckets (the 9-entry config table is not used by the
calculator), scanned from most positive to most negative, first match wins; it
maps +12% to 90, +6% to 75, 0% to 45 (not 55: the `> 0` bucket excludes 0), and
-6% to 25. -/
theorem C2_momentum_buckets (btc_price x : ℚ) :
    calculate_btc_momentum btc_price 12 = 90 ∧
    calculate_btc_momentum btc_price 6 = 75 ∧
    calculate_btc_momentum btc_price 0 = 45 ∧
    calculate_btc_momentum btc_price (-6) = 25 ∧
    calculate_btc_momentum btc_price x ∈ ([90, 75, 65, 55, 45, 35, 25, 10] : List ℚ) ∧
    (10 < x → calculate_btc_momentum btc_price x = 90) ∧
    (5 < x → x ≤ 10 → calculate_btc_momentum btc_price x = 75) ∧
    (2 < x → x ≤ 5 → calculate_btc_momentum btc_price x = 65) ∧
    (0 < x → x ≤ 2 → calculate_btc_momentum btc_price x = 55) ∧
    (-2 < x → x ≤ 0 → calculate_btc_momentum btc_price x = 45) ∧
    (-5 < x → x ≤ -2 → calculate_btc_momentum btc_price x = 35) ∧
    (-10 < x → x ≤ -5 → calculate_btc_momentum btc_price x = 25) ∧
    (x ≤ -10 → calculate_btc_momentum btc_price x = 10) := by
  refine ⟨by norm_num [calculate_btc_momentum], by norm_num [calculate_btc_momentum],
    by norm_num [calculate_btc_momentum], by norm_num [calculate_btc_momentum],
    ?_, ?_, ?_, ?_, ?_, ?_, ?_, ?_, ?_⟩ <;>
    · intros
      unfold calculate_btc_momentum
      split_ifs <;> first | linarith | simp

theorem C2_witness : (10:ℚ) < 12 ∧ calculate_btc_momentum 0 12 = 90 :=
  ⟨by norm_num, (C2_momentum_buckets 0 12).2.2.2.2.2.1 (by norm_num)⟩

/-- C2 counterexample: a 24h change of exactly 0% yields momentum 45, not the
55 stated by the claim. -/
theorem C2_counterexample : calculate_btc_momentum 0 0 = 45 ∧ (45 : ℚ) ≠ 55 :=
  ⟨by norm_num [calculate_btc_momentum], by norm_num⟩

/-- C3: on the non-exception path (components recorded), the reported score is
the weighted sum fear_greed*0.35 + btc_momentum*0.25 + volume_health*0.20 +
market_breadth*0.20 clamped to [0,100] and rounded to one decimal. -/
theorem C3_weighted_sum (md : List (String × Val)) (c : Components)
    (h : (calculate_risk_score md).components = some c) :
    (calculate_risk_score md).score =
      pyRound1 (pyMax 0 (pyMin 100 (c.fear_greed * (35/100) + c.btc_momentum * (25/100) +
        c.volume_health * (20/100) + c.market_breadth * (20/100)))) := by
  rcases calc_risk_score_cases md with he | ⟨fg, mom, vh, mb, he⟩
  · rw [he] at h
    exact absurd h (by simp [errorResult])
  · rw [he] at h ⊢
    have hc : c = ⟨fg, mom, vh, mb⟩ := by
      have hcc : (assembleResult fg mom vh mb).components = some ⟨fg, mom, vh, mb⟩ := rfl
      rw [hcc] at h
      exact (Option.some.inj h).symm
    subst hc
    rfl

theorem C3_witness :
    (calculate_risk_score []).components = some ⟨50, 45, 35, 50⟩ ∧
    (calculate_risk_score []).score =
      pyRound1 (pyMax 0 (pyMin 100 ((50:ℚ) * (35/100) + (45:ℚ) * (25/100) +
        (35:ℚ) * (20/100) + (50:ℚ) * (20/100)))) := by
  have hcomp : (calculate_risk_score []).components = some ⟨50, 45, 35, 50⟩ := by
    rw [calc_empty_eval]
    rfl
  exact ⟨hcomp, C3_weighted_sum [] ⟨50, 45, 35, 50⟩ hcomp⟩

/-- C5: if the computation inside `calculate_risk_score` raises, the function
returns the fixed fallback result with score 50 and status "Error"; as a total
function of its input it never propagates an exception. -/
theorem C5_exception_fallback (md : List (String × Val)) (e : String)
    (h : calcRiskScoreCore md = .error e) :
    calculate_risk_score md = errorResult ∧
    errorResult.score = 50 ∧ errorResult.status = "Error" := by
  refine ⟨?_, rfl, rfl⟩
  unfold calculate_risk_score
  rw [h]

theorem C5_witness :
    calcRiskScoreCore [("fear_greed", Val.num 1)] = .error "AttributeError" ∧
    calculate_risk_score [("fear_greed", Val.num 1)] = errorResult ∧
    errorResult.score = 50 ∧ errorResult.status = "Error" :=
  ⟨rfl, C5_exception_fallback [("fear_greed", Val.num 1)] "AttributeError" rfl⟩

/-- C6: every integer score in [0,100] matches exactly one entry of the
five-range threshold table, and `get_risk_status` maps it to one of the five
statuses. -/
theorem C6_integer_partition (n : Fin 101) :
    RISK_SCORE_THRESHOLDS.countP (fun t => thresholdMatches t ((n : ℕ) : ℚ)) = 1 ∧
    (get_risk_status ((n : ℕ) : ℚ)).status ∈
      (["Extreme Risk Off", "Risk Off", "Neutral", "Risk On", "Extreme Risk On"] :
        List String) := by
  revert n
  decide

theorem calculate_volume_health_num (cv tmc : ℚ) (h : 0 < tmc) :
    calculate_volume_health (.num cv) (.dict [("total_market_cap_usd", .num tmc)]) =
      .ok (volumeBucket (cv / tmc * 100)) := by
  unfold calculate_volume_health
  simp [Val.get, Val.toNum, List.find?, h]

set_option maxHeartbeats 1600000 in
/-- C7: `calculate_btc_momentum` is monotonically non-decreasing in the 24h %
change (for any fixed price), the volume bucket function is monotonically
non-decreasing in the volume/mcap ratio, and `calculate_volume_health` is
monotonically non-decreasing in the current volume for a fixed positive total
market cap. -/
theorem C7_monotonicity :
    (∀ btc_price a b : ℚ, a ≤ b →
      calculate_btc_momentum btc_price a ≤ calculate_btc_momentum btc_price b) ∧
    (∀ a b : ℚ, a ≤ b → volumeBucket a ≤ volumeBucket b) ∧
    (∀ tmc cva cvb va vb : ℚ, 0 < tmc → cva ≤ cvb →
      calculate_volume_health (.num cva) (.dict [("total_market_cap_usd", .num tmc)]) = .ok va →
      calculate_volume_health (.num cvb) (.dict [("total_market_cap_usd", .num tmc)]) = .ok vb →
      va ≤ vb) := by
  have hvb : ∀ a b : ℚ, a ≤ b → volumeBucket a ≤ volumeBucket b := by
    intro a b hab
    unfold volumeBucket
    split_ifs <;> first | linarith | norm_num
  refine ⟨?_, hvb, ?_⟩
  · intro p a b hab
    unfold calculate_btc_momentum
    split_ifs <;> first | linarith | norm_num
  · intro tmc cva cvb va vb htmc hle ha hb
    rw [calculate_volume_health_num cva tmc htmc] at ha
    rw [calculate_volume_health_num cvb tmc htmc] at hb
    have hva : va = volumeBucket (cva / tmc * 100) := (Except.ok.inj ha).symm
    have hvbq : vb = volumeBucket (cvb / tmc * 100) := (Except.ok.inj hb).symm
    rw [hva, hvbq]
    apply hvb
    have hdiv : cva / tmc ≤ cvb / tmc := (div_le_div_right htmc).mpr hle
    exact mul_le_mul_of_nonneg_right hdiv (by norm_num)

theorem C7_witness :
    calculate_btc_momentum 0 (-1) ≤ calculate_btc_momentum 0 3 ∧
    volumeBucket 1 ≤ volumeBucket 9 ∧ (95:ℚ) ≤ 95 := by
  have h1 : calculate_volume_health (.num 1) (.dict [("total_market_cap_usd", .num 2)]) =
      .ok 95 := by
    rw [calculate_volume_health_num 1 2 (by norm_num)]
    norm_num [volumeBucket]
  have h2 : calculate_volume_health (.num 5) (.dict [("total_market_cap_usd", .num 2)]) =
      .ok 95 := by
    rw [calculate_volume_health_num 5 2 (by norm_num)]
    norm_num [volumeBucket]
  exact ⟨C7_monotonicity.1 0 (-1) 3 (by norm_num),
         C7_monotonicity.2.1 1 9 (by norm_num),
         C7_monotonicity.2.2 2 1 5 95 95 (by norm_num) (by norm_num) h1 h2⟩

/-- C10: on the empty market_data dict, the defaults (fear & greed 50, BTC
momentum 45 for the 0% change default, volume health 35, market breadth 50)
produce the unrounded weighted sum 45.75, which falls in the gap between the
bands [31,45] and [46,60]; the reported score is 45.8 and the status is the
defensive "Unknown" fallback, reachable at the public interface. -/
theorem C10_empty_defaults :
    calculate_risk_score [] =
      ⟨458/10, "Unknown", "#808080", "⚪", "Unable to determine market status",
       some ⟨50, 45, 35, 50⟩⟩ ∧
    clampScore 50 45 35 50 = 183/4 ∧
    (45:ℚ) < 183/4 ∧ ((183:ℚ)/4) < 46 ∧
    pyRound1 (183/4) = 458/10 := by
  refine ⟨?_, clampScore_empty, by norm_num, by norm_num, pyRound1_4575⟩
  rw [calc_empty_eval]
  unfold assembleResult
  rw [clampScore_empty, get_risk_status_4575, pyRound1_4575]

theorem foldl_min_mem (key : HistEntry → ℕ) (t : List HistEntry) (h : HistEntry) :
    t.foldl (fun b x => if key x < key b then x else b) h ∈ h :: t := by
  induction t generalizing h with
  | nil => simp [List.foldl]
  | cons y ys ih =>
    have hstep := ih (if key y < key h then y else h)
    simp only [List.foldl_cons]
    by_cases hk : key y < key h
    · rw [if_pos hk] at hstep ⊢
      exact List.mem_cons_of_mem h hstep
    · rw [if_neg hk] at hstep ⊢
      rcases List.mem_cons.mp hstep with h1 | h1
      · exact List.mem_cons.mpr (Or.inl h1)
      · exact List.mem_cons.mpr (Or.inr (List.mem_cons_of_mem y h1))

theorem argminKey_mem (key : HistEntry → ℕ) (l : List HistEntry) (x : HistEntry)
    (h : argminKey key l = some x) : x ∈ l := by
  cases l with
  | nil => simp [argminKey] at h
  | cons a t =>
    simp only [argminKey, Option.some.injEq] at h
    rw [← h]
    exact foldl_min_mem key t a

theorem pickClosest_not_used (target : ℤ) (used : List ℤ) (history : List HistEntry)
    (x : HistEntry) (h : pickClosest target used history = some x) : x.ts ∉ used := by
  have hmem := argminKey_mem _ _ _ h
  have hprop := (List.mem_filter.mp hmem).2
  intro hin
  rw [Bool.not_eq_eq_eq_not, Bool.not_true] at hprop
  simp at hprop
  exact hprop hin

theorem ghYesterday_ts_notin (history : List HistEntry) (now_time : ℤ) (l b : HistEntry)
    (hl : history.getLast? = some l) (hy : ghYesterday history now_time = some b) :
    b.ts ∉ ([l.ts] : List ℤ) := by
  unfold ghYesterday at hy
  rw [hl] at hy
  simp only at hy
  by_cases hc : 1 < history.length
  · rw [if_pos hc] at hy
    exact pickClosest_not_used _ _ _ _ hy
  · rw [if_neg hc] at hy
    simp at hy

theorem ghLastWeek_ts_notin (history : List HistEntry) (now_time : ℤ) (l b : HistEntry)
    (hl : history.getLast? = some l) (hw : ghLastWeek history now_time = some b) :
    b.ts ∉ usedAfter [l.ts] (ghYesterday history now_time) := by
  unfold ghLastWeek at hw
  rw [hl] at hw
  simp only at hw
  by_cases hc : 1 < history.length
  · rw [if_pos hc] at hw
    exact pickClosest_not_used _ _ _ _ hw
  · rw [if_neg hc] at hw
    simp at hw

theorem ghLastMonth_ts_notin (history : List HistEntry) (now_time : ℤ) (l b : HistEntry)
    (hl : history.getLast? = some l) (hm : ghLastMonth history now_time = some b) :
    b.ts ∉ usedAfter (usedAfter [l.ts] (ghYesterday history now_time))
      (ghLastWeek history now_time) := by
  unfold ghLastMonth at hm
  rw [hl] at hm
  simp only at hm
  by_cases hc : 1 < history.length
  · rw [if_pos hc] at hm
    exact pickClosest_not_used _ _ _ _ hm
  · rw [if_neg hc] at hm
    simp at hm

/-- C4 (amended): `get_historical_values` removes each selected entry's
timestamp from the candidate pool before the next search, and the latest
("now") entry's timestamp is added to the pool before the yesterday search as
well — so no two of the four slots ever hold entries with the same timestamp;
in particular "now" is NOT separately eligible for the three historical slots. -/
theorem C4_sequential_exclusion (history : List HistEntry) (now_time : ℤ) :
    (∀ a b, (get_historical_values history now_time).now = some a →
      (get_historical_values history now_time).yesterday = some b → b.ts ≠ a.ts) ∧
    (∀ a b, (get_historical_values history now_time).now = some a →
      (get_historical_values history now_time).last_week = some b → b.ts ≠ a.ts) ∧
    (∀ a b, (get_historical_values history now_time).now = some a →
      (get_historical_values history now_time).last_month = some b → b.ts ≠ a.ts) ∧
    (∀ a b, (get_historical_values history now_time).yesterday = some a →
      (get_historical_values history now_time).last_week = some b → b.ts ≠ a.ts) ∧
    (∀ a b, (get_historical_values history now_time).yesterday = some a →
      (get_historical_values history now_time).last_month = some b → b.ts ≠ a.ts) ∧
    (∀ a b, (get_historical_values history now_time).last_week = some a →
      (get_historical_values history now_time).last_month = some b → b.ts ≠ a.ts) := by
  cases history with
  | nil =>
    refine ⟨?_, ?_, ?_, ?_, ?_, ?_⟩ <;> · intro a b ha hb; simp [get_historical_values] at ha
  | cons x xs =>
    obtain ⟨l, hl⟩ : ∃ l, (x :: xs).getLast? = some l := by
      cases hgl : (x :: xs).getLast? with
      | none => exact absurd (List.getLast?_eq_none_iff.mp hgl) (by simp)
      | some l => exact ⟨l, rfl⟩
    refine ⟨?_, ?_, ?_, ?_, ?_, ?_⟩ <;> intro a b ha hb <;>
      simp only [get_historical_values] at ha hb
    · rw [hl] at ha
      obtain rfl : l = a := Option.some.inj ha
      have hnot := ghYesterday_ts_notin _ _ _ _ hl hb
      intro heq
      exact hnot (by simp [heq])
    · rw [hl] at ha
      obtain rfl : l = a := Option.some.inj ha
      have hnot := ghLastWeek_ts_notin _ _ _ _ hl hb
      intro heq
      exact hnot (by simp [usedAfter, heq])
    · rw [hl] at ha
      obtain rfl : l = a := Option.some.inj ha
      have hnot := ghLastMonth_ts_notin _ _ _ _ hl hb
      intro heq
      exact hnot (by simp [usedAfter, heq])
    · have hnot := ghLastWeek_ts_notin _ _ _ _ hl hb
      rw [ha] at hnot
      intro heq
      exact hnot (by simp [usedAfter, heq])
    · have hnot := ghLastMonth_ts_notin _ _ _ _ hl hb
      rw [ha] at hnot
      intro heq
      exact hnot (by simp [usedAfter, heq])
    · have hnot := ghLastMonth_ts_notin _ _ _ _ hl hb
      rw [ha] at hnot
      intro heq
      exact hnot (by simp [usedAfter, heq])

theorem C4_witness :
    (get_historical_values
      [⟨864000, 1, "m", "mm"⟩, ⟨2851200, 2, "w", "mm"⟩, ⟨3369600, 3, "y", "mm"⟩,
       ⟨3456000, 4, "n", "mm"⟩] 3456000).yesterday = some ⟨3369600, 3, "y", "mm"⟩ ∧
    (get_historical_values
      [⟨864000, 1, "m", "mm"⟩, ⟨2851200, 2, "w", "mm"⟩, ⟨3369600, 3, "y", "mm"⟩,
       ⟨3456000, 4, "n", "mm"⟩] 3456000).last_week = some ⟨2851200, 2, "w", "mm"⟩ ∧
    ((2851200 : ℤ) ≠ 3369600) :=
  ⟨by decide, by decide,
   (C4_sequential_exclusion
      [⟨864000, 1, "m", "mm"⟩, ⟨2851200, 2, "w", "mm"⟩, ⟨3369600, 3, "y", "mm"⟩,
       ⟨3456000, 4, "n", "mm"⟩] 3456000).2.2.2.1
     ⟨3369600, 3, "y", "mm"⟩ ⟨2851200, 2, "w", "mm"⟩ (by decide) (by decide)⟩

/-- C4 counterexample: with two entries where the latest one sits exactly at the
24h target, the yesterday slot returns the other (strictly farther) entry: the
"now" entry is excluded from the candidate pool, not separately eligible. -/
theorem C4_counterexample :
    (get_historical_values [⟨0, 1, "a", "m"⟩, ⟨777600, 2, "b", "m"⟩] 864000).now =
      some ⟨777600, 2, "b", "m"⟩ ∧
    (get_historical_values [⟨0, 1, "a", "m"⟩, ⟨777600, 2, "b", "m"⟩] 864000).yesterday =
      some ⟨0, 1, "a", "m"⟩ ∧
    ((777600 : ℤ) - (864000 - 86400)).natAbs < ((0 : ℤ) - (864000 - 86400)).natAbs :=
  ⟨by decide, by decide, by decide⟩

theorem pruneOld_cons (cutoff : ℤ) (x : Json) (t : List Json) :
    pruneOld cutoff (x :: t) =
      match jIndex x "timestamp" with
      | .error e => .error e
      | .ok ts =>
        match fromIso ts with
        | .error e => .error e
        | .ok tv =>
          match pruneOld cutoff t with
          | .error e => .error e
          | .ok rest => if cutoff < tv then .ok (x :: rest) else .ok rest := rfl

theorem pruneOld_append_mem (cutoff t : ℤ) (e : Json)
    (hts : jIndex e "timestamp" = .ok (.iso t)) (hlt : cutoff < t) :
    ∀ l res : List Json, pruneOld cutoff (l ++ [e]) = .ok res → e ∈ res := by
  intro l
  induction l with
  | nil =>
    intro res h
    rw [List.nil_append, pruneOld_cons, hts] at h
    simp only [fromIso, pruneOld, if_pos hlt] at h
    obtain rfl := Except.ok.inj h
    exact List.mem_singleton_self e
  | cons x xs ih =>
    intro res h
    rw [List.cons_append, pruneOld_cons] at h
    rcases h1 : jIndex x "timestamp" with e1 | ts1
    · rw [h1] at h
      exact absurd h (by simp)
    · rw [h1] at h
      simp only at h
      rcases h2 : fromIso ts1 with e2 | tv
      · rw [h2] at h
        exact absurd h (by simp)
      · rw [h2] at h
        simp only at h
        rcases h3 : pruneOld cutoff (xs ++ [e]) with e3 | rest
        · rw [h3] at h
          exact absurd h (by simp)
        · rw [h3] at h
          simp only at h
          have hrest : e ∈ rest := ih rest h3
          by_cases hc : cutoff < tv
          · rw [if_pos hc] at h
            obtain rfl := Except.ok.inj h
            exact List.mem_cons_of_mem x hrest
          · rw [if_neg hc] at h
            obtain rfl := Except.ok.inj h
            exact hrest

/-- C8 (amended): if `save_score` succeeds, reloading the history yields a list
that contains the just-saved entry, with the score rounded to one decimal (as
`save_score` stores `round(score, 1)`), the same status and message, and the
timestamp preserved as the ISO string of the save time. -/
theorem C8_roundtrip (f : FileContent) (now_ts : ℤ) (score : ℚ) (status message : String)
    (f' : FileContent) (h : save_score f now_ts score status message = .ok f') :
    ∃ l, load_history f' = .ok (.arr l) ∧ mkEntry now_ts score status message ∈ l := by
  unfold save_score at h
  rcases h1 : load_history f with e1 | history
  · rw [h1] at h
    exact absurd h (by simp)
  · rw [h1] at h
    simp only at h
    rcases history with _ | q | s | ti | items | fields
    · exact absurd h (by simp)
    · exact absurd h (by simp)
    · exact absurd h (by simp)
    · exact absurd h (by simp)
    · simp only at h
      rcases h2 : pruneOld (now_ts - 90 * 86400)
          (items ++ [mkEntry now_ts score status message]) with e2 | pruned
      · rw [h2] at h
        exact absurd h (by simp)
      · rw [h2] at h
        simp only at h
        obtain rfl := Except.ok.inj h
        refine ⟨pruned, rfl, ?_⟩
        exact pruneOld_append_mem (now_ts - 90 * 86400) now_ts
          (mkEntry now_ts score status message) rfl (by omega) items pruned h2
    · exact absurd h (by simp)

theorem C8_witness :
    save_score .missing 5 (1/2) "ok" "msg" =
      .ok (.json (.obj [("history", .arr [mkEntry 5 (1/2) "ok" "msg"])])) ∧
    ∃ l, load_history (.json (.obj [("history", .arr [mkEntry 5 (1/2) "ok" "msg"])])) =
      .ok (.arr l) ∧ mkEntry 5 (1/2) "ok" "msg" ∈ l :=
  ⟨rfl, C8_roundtrip .missing 5 (1/2) "ok" "msg"
    (.json (.obj [("history", .arr [mkEntry 5 (1/2) "ok" "msg"])])) rfl⟩

/-- C8 counterexample: saving score 0.26 stores 0.3 (round to one decimal), so
the loaded history does not contain an entry with the same score 0.26. -/
theorem C8_counterexample :
    save_score .missing 0 (13/50) "s" "m" =
      .ok (.json (.obj [("history", .arr [mkEntry 0 (13/50) "s" "m"])])) ∧
    jIndex (mkEntry 0 (13/50) "s" "m") "score" = .ok (.num (pyRound1 (13/50))) ∧
    pyRound1 (13/50) = 3/10 ∧ ((3:ℚ)/10) ≠ 13/50 := by
  refine ⟨rfl, rfl, ?_, by norm_num⟩
  unfold pyRound1 roundHalfEven
  norm_num

/-- C9 (amended): `load_history` returns `[]` for a missing file and for
undecodable (corrupt) contents; for a decodable JSON object it returns the raw
`history` value with default `[]`; but for decodable JSON that is not an object
the `data.get` call raises an uncaught AttributeError, so the function does not
return for every file content. -/
theorem C9_load_history (j : Json) :
    load_history .missing = .ok (.arr []) ∧
    load_history .corrupt = .ok (.arr []) ∧
    (∀ fields, load_history (.json (.obj fields)) =
      .ok ((jLookup fields "history").getD (.arr []))) ∧
    (j.isObj = false → load_history (.json j) = .error "AttributeError") := by
  refine ⟨rfl, rfl, fun fields => rfl, ?_⟩
  intro hj
  cases j <;> first | rfl | exact absurd hj (by simp [Json.isObj])

theorem C9_witness :
    (Json.arr []).isObj = false ∧
    load_history (.json (.arr [])) = .error "AttributeError" :=
  ⟨rfl, (C9_load_history (.arr [])).2.2.2 rfl⟩

/-- C9 counterexample: a file holding the valid JSON document `[]` (an array,
not an object) makes `load_history` raise AttributeError instead of returning a
list. -/
theorem C9_counterexample :
    load_history (.json (.arr [])) = .error "AttributeError" ∧
    (load_history (.json (.arr []))).isOk = false :=
  ⟨rfl, rfl⟩
